import Mathlib

set_option linter.unnecessarySeqFocus false
set_option linter.unusedVariables false

/-!
Verification of the Thai personal income tax calculator
(`src/steamlit_app.py`).

The script has two computational parts:

* the function `calculate_tax` (lines 31–76): a progressive-bracket tax
  computation over a fixed table of eight brackets, returning the total
  tax and a per-bracket breakdown;
* straight-line deduction aggregation (lines 106–184): standard expense
  deduction, family allowances, insurance and retirement group caps,
  total deductions, net taxable income and effective tax rate.

Numbers are modelled as exact rationals (`ℚ`), standing in for Python
floats; the claims settled here are about exact arithmetic.  Python's
`float('inf')` upper limit of the last bracket is modelled by
`Option ℚ` with `none` standing for `+∞`.

Line 150 of the source ends in a trailing comma
(`teawdeemeekeun = st.number_input(...),`), which in Python binds the
name to a one-element tuple rather than a float.  The dynamic-typing
consequences of that line for the `total_deductions` sum at lines
164–176 are modelled with the small `PyVal` type below.
-/

/-- One row of the breakdown list produced by `calculate_tax`
(the dict appended at lines 63–68).  The Python code stores the bracket
as a formatted string `f"{prev_limit+1:,.0f} - {limit}"`; we keep the
two numbers structured instead: `lower` is `prev_limit`, `upper` is the
bracket's `limit` (`none` for `float('inf')`). -/
structure BracketRow where
  lower : ℚ
  upper : Option ℚ
  rate : ℚ
  amountTaxed : ℚ
  taxPayable : ℚ
deriving DecidableEq, Repr

/-- The fixed bracket table of `calculate_tax` (lines 33–42);
`none` models `float('inf')`. -/
def brackets : List (Option ℚ × ℚ) :=
  [(some 150000, 0),
   (some 300000, 5/100),
   (some 500000, 10/100),
   (some 750000, 15/100),
   (some 1000000, 20/100),
   (some 2000000, 25/100),
   (some 5000000, 30/100),
   (none, 35/100)]

/-- The bracket loop of `calculate_tax` (lines 50–74), with the loop
state (`tax`, `remaining_income`, `prev_limit`) passed explicitly.
For the `none` (infinite) bracket, `amount_in_bracket = remaining`
(in the source, `min(remaining, inf - prev) = remaining`); after that
bracket `remaining' = 0`, so the `remaining' ≤ 0` break always fires and
the recursive call is unreachable — the Python assignment
`prev_limit = float('inf')` therefore never feeds another iteration and
we pass `prev_limit` through unchanged in that dead branch. -/
def calcGo (taxable_income : ℚ) :
    List (Option ℚ × ℚ) → ℚ → ℚ → ℚ → ℚ × List BracketRow
  | [], tax, _remaining, _prev_limit => (tax, [])
  | (limit, rate) :: rest, tax, remaining, prev_limit =>
    if taxable_income ≤ prev_limit then (tax, [])
    else
      let amount_in_bracket :=
        match limit with
        | some l => min remaining (l - prev_limit)
        | none => remaining
      let tax_chunk := amount_in_bracket * rate
      let tax' := tax + tax_chunk
      let rows : List BracketRow :=
        if 0 < amount_in_bracket then
          [⟨prev_limit, limit, rate, amount_in_bracket, tax_chunk⟩]
        else []
      let remaining' := remaining - amount_in_bracket
      if remaining' ≤ 0 then (tax', rows)
      else
        let next := calcGo taxable_income rest tax' remaining'
          (match limit with | some l => l | none => prev_limit)
        (next.1, rows ++ next.2)

/-- Source lines 31–76, `calculate_tax`: initial state `tax = 0`,
`remaining_income = taxable_income`, `prev_limit = 0`. -/
def calculate_tax (taxable_income : ℚ) : ℚ × List BracketRow :=
  calcGo taxable_income brackets 0 taxable_income 0

/-- Sum of the "Amount Taxed" column of a breakdown. -/
def sumAmounts (rows : List BracketRow) : ℚ :=
  (rows.map (fun r => r.amountTaxed)).sum

/-- Sum of the "Tax Payable" column of a breakdown. -/
def sumChunks (rows : List BracketRow) : ℚ :=
  (rows.map (fun r => r.taxPayable)).sum

/-- Source line 106: `total_income`. -/
def total_income (salary_monthly bonus_annual other_income foreign_income : ℚ) : ℚ :=
  salary_monthly * 12 + bonus_annual + other_income + foreign_income

/-- Source line 109, `expenses_deduction`: 50% of income, max 100k. -/
def expenses_deduction (ti : ℚ) : ℚ :=
  min (ti * (5/10)) 100000

/-- Source line 123, `spouse_allowance`: 60,000 only for the selectbox
choice "Married (File Jointly)". -/
def spouse_allowance (status : String) : ℚ :=
  if status = "Married (File Jointly)" then 60000 else 0

/-- Source line 128, `child_allowance`: 30k per child. -/
def child_allowance (children : ℕ) : ℚ := children * 30000

/-- Source line 131, `parent_allowance`: 30k per qualifying parent. -/
def parent_allowance (parents : ℕ) : ℚ := parents * 30000

/-- Source line 155, `health_deductible`: health insurance premium
capped at 25k. -/
def health_deductible (health_insurance : ℚ) : ℚ :=
  min health_insurance 25000

/-- Source line 156, `life_health_total`: life premium plus capped
health premium, capped at 100k. -/
def life_health_total (life_insurance health_insurance : ℚ) : ℚ :=
  min (life_insurance + health_deductible health_insurance) 100000

/-- Source line 161, `retirement_sum`. -/
def retirement_sum (provident_fund rmf ssf : ℚ) : ℚ :=
  provident_fund + rmf + ssf

/-- Source line 162, `retirement_deductible`: PVD + RMF + SSF capped
at 500k. -/
def retirement_deductible (provident_fund rmf ssf : ℚ) : ℚ :=
  min (retirement_sum provident_fund rmf ssf) 500000

/-- Source line 182, `net_taxable_income`. -/
def net_taxable_income (ti ed td : ℚ) : ℚ :=
  max 0 (ti - ed - td)

/-- Source line 184, `effective_tax_rate`. -/
def effective_tax_rate (tax_payable ti : ℚ) : ℚ :=
  if 0 < ti then tax_payable / ti * 100 else 0

/-- A Python runtime value as far as lines 164–176 are concerned:
either a float (modelled exactly as a rational) or a tuple of values. -/
inductive PyVal where
  | float (x : ℚ)
  | tuple (xs : List PyVal)

/-- Python's `+` on these values: float + float adds, tuple + tuple
concatenates, any mixed combination raises `TypeError` (modelled as
`none`). -/
def pyAdd : PyVal → PyVal → Option PyVal
  | .float a, .float b => some (.float (a + b))
  | .tuple a, .tuple b => some (.tuple (a ++ b))
  | _, _ => none

/-- The value bound to `teawdeemeekeun` at lines 150–151: the statement
ends with a trailing comma, so the name holds the one-element tuple
`(st.number_input(...),)`, not the widget's float. -/
def teawdeemeekeun (widget_value : ℚ) : PyVal :=
  .tuple [.float widget_value]

/-- Source lines 164–176, `total_deductions`, as Python evaluates it:
the left-associated chain of `+` over the eleven summands, where the
tenth summand is the `teawdeemeekeun` value.  Returns `none` if any
addition raises `TypeError`. -/
def total_deductions_py (spouse child parent sso lht retire thai_esg easy : ℚ)
    (teaw : PyVal) (mortgage : ℚ) : Option PyVal :=
  (pyAdd (.float 60000) (.float spouse)).bind fun a1 =>
  (pyAdd a1 (.float child)).bind fun a2 =>
  (pyAdd a2 (.float parent)).bind fun a3 =>
  (pyAdd a3 (.float sso)).bind fun a4 =>
  (pyAdd a4 (.float lht)).bind fun a5 =>
  (pyAdd a5 (.float retire)).bind fun a6 =>
  (pyAdd a6 (.float thai_esg)).bind fun a7 =>
  (pyAdd a7 (.float easy)).bind fun a8 =>
  (pyAdd a8 teaw).bind fun a9 =>
  pyAdd a9 (.float mortgage)

/-- Clamped linear contribution of one bracket: the part of `x` that
falls between `l` and `u`.  Verification helper, used only to express
the bracket tax in a form whose monotonicity is evident. -/
def clamp (x l u : ℚ) : ℚ := max 0 (min x u - l)

/-- Closed form of the bracket tax as a sum of clamped linear terms.
Verification helper: proved equal to `(calculate_tax x).1` for
`0 ≤ x` in `calc_fst_eq_closed`, and monotone in `tax_closed_mono`. -/
def tax_closed (x : ℚ) : ℚ :=
  (5/100) * clamp x 150000 300000 +
  (10/100) * clamp x 300000 500000 +
  (15/100) * clamp x 500000 750000 +
  (20/100) * clamp x 750000 1000000 +
  (25/100) * clamp x 1000000 2000000 +
  (30/100) * clamp x 2000000 5000000 +
  (35/100) * max 0 (x - 5000000)

/-! ## Evaluation lemmas for the bracket loop -/

/-- The loop breaks immediately when `taxable_income ≤ prev_limit`
(line 51). -/
theorem calcGo_break (ti : ℚ) (limit : Option ℚ) (rate : ℚ)
    (rest : List (Option ℚ × ℚ)) (tax remaining prev : ℚ) (h : ti ≤ prev) :
    calcGo ti ((limit, rate) :: rest) tax remaining prev = (tax, []) := by
  simp only [calcGo, if_pos h]

/-- One non-final iteration over a finite bracket: the bracket's slice
`amount` is taxed, a row is emitted, and the loop continues. -/
theorem calcGo_some_step (ti l rate : ℚ) (rest : List (Option ℚ × ℚ))
    (tax remaining prev amount : ℚ)
    (hlt : prev < ti) (hamt : min remaining (l - prev) = amount)
    (hpos : 0 < amount) (hcont : ¬ remaining - amount ≤ 0) :
    calcGo ti ((some l, rate) :: rest) tax remaining prev =
      ((calcGo ti rest (tax + amount * rate) (remaining - amount) l).1,
       ⟨prev, some l, rate, amount, amount * rate⟩ ::
         (calcGo ti rest (tax + amount * rate) (remaining - amount) l).2) := by
  simp only [calcGo, if_neg (not_le.mpr hlt), hamt, if_pos hpos, if_neg hcont]
  simp

/-- A final iteration over a finite bracket: the remaining income fits,
a row is emitted, and the `remaining' ≤ 0` break fires (lines 73–74). -/
theorem calcGo_some_stop (ti l rate : ℚ) (rest : List (Option ℚ × ℚ))
    (tax remaining prev amount : ℚ)
    (hlt : prev < ti) (hamt : min remaining (l - prev) = amount)
    (hpos : 0 < amount) (hstop : remaining - amount ≤ 0) :
    calcGo ti ((some l, rate) :: rest) tax remaining prev =
      (tax + amount * rate, [⟨prev, some l, rate, amount, amount * rate⟩]) := by
  simp only [calcGo, if_neg (not_le.mpr hlt), hamt, if_pos hpos, if_pos hstop]

/-- The infinite bracket always absorbs all remaining income and the
loop stops. -/
theorem calcGo_none_stop (ti rate : ℚ) (rest : List (Option ℚ × ℚ))
    (tax remaining prev : ℚ)
    (hlt : prev < ti) (hpos : 0 < remaining) :
    calcGo ti ((none, rate) :: rest) tax remaining prev =
      (tax + remaining * rate, [⟨prev, none, rate, remaining, remaining * rate⟩]) := by
  simp only [calcGo, if_neg (not_le.mpr hlt), if_pos hpos]
  simp

/-- Non-positive input: the first loop-head check `taxable_income ≤ 0`
breaks immediately, giving zero tax and an empty breakdown. -/
theorem calc_nonpos (x : ℚ) (hx : x ≤ 0) : calculate_tax x = (0, []) := by
  simp [calculate_tax, brackets, calcGo, hx]

/-- Evaluation on `0 < x ≤ 150000`: one 0%-bracket row. -/
theorem calc_region1 (x : ℚ) (h0 : 0 < x) (h1 : x ≤ 150000) :
    calculate_tax x = (0, [⟨0, some 150000, 0, x, 0⟩]) := by
  rw [calculate_tax, brackets,
    calcGo_some_stop x 150000 0 _ 0 x 0 x h0 (by rw [min_eq_left] <;> linarith)
      h0 (by linarith)]
  norm_num

/-- Evaluation on `150000 < x ≤ 300000`. -/
theorem calc_region2 (x : ℚ) (h0 : 150000 < x) (h1 : x ≤ 300000) :
    calculate_tax x =
      ((x - 150000) * (5/100),
       [⟨0, some 150000, 0, 150000, 0⟩,
        ⟨150000, some 300000, 5/100, x - 150000, (x - 150000) * (5/100)⟩]) := by
  rw [calculate_tax, brackets,
    calcGo_some_step x 150000 0 _ 0 x 0 150000 (by linarith)
      (by rw [min_eq_right] <;> linarith) (by norm_num) (by simp; linarith),
    calcGo_some_stop x 300000 (5/100) _ _ _ 150000 (x - 150000) (by linarith)
      (by rw [min_eq_left] <;> linarith) (by linarith) (by linarith)]
  norm_num

/-- Evaluation on `300000 < x ≤ 500000`. -/
theorem calc_region3 (x : ℚ) (h0 : 300000 < x) (h1 : x ≤ 500000) :
    calculate_tax x =
      ((x - 300000) * (10/100) + 7500,
       [⟨0, some 150000, 0, 150000, 0⟩,
        ⟨150000, some 300000, 5/100, 150000, 7500⟩,
        ⟨300000, some 500000, 10/100, x - 300000, (x - 300000) * (10/100)⟩]) := by
  rw [calculate_tax, brackets,
    calcGo_some_step x 150000 0 _ 0 x 0 150000 (by linarith)
      (by rw [min_eq_right] <;> linarith) (by norm_num) (by simp; linarith),
    calcGo_some_step x 300000 (5/100) _ _ _ 150000 150000 (by linarith)
      (by rw [min_eq_right] <;> linarith) (by norm_num) (by simp; linarith),
    calcGo_some_stop x 500000 (10/100) _ _ _ 300000 (x - 300000) (by linarith)
      (by rw [min_eq_left] <;> linarith) (by linarith) (by linarith)]
  norm_num
  ring_nf

/-- Evaluation on `500000 < x ≤ 750000`. -/
theorem calc_region4 (x : ℚ) (h0 : 500000 < x) (h1 : x ≤ 750000) :
    calculate_tax x =
      ((x - 500000) * (15/100) + 27500,
       [⟨0, some 150000, 0, 150000, 0⟩,
        ⟨150000, some 300000, 5/100, 150000, 7500⟩,
        ⟨300000, some 500000, 10/100, 200000, 20000⟩,
        ⟨500000, some 750000, 15/100, x - 500000, (x - 500000) * (15/100)⟩]) := by
  rw [calculate_tax, brackets,
    calcGo_some_step x 150000 0 _ 0 x 0 150000 (by linarith)
      (by rw [min_eq_right] <;> linarith) (by norm_num) (by simp; linarith),
    calcGo_some_step x 300000 (5/100) _ _ _ 150000 150000 (by linarith)
      (by rw [min_eq_right] <;> linarith) (by norm_num) (by simp; linarith),
    calcGo_some_step x 500000 (10/100) _ _ _ 300000 200000 (by linarith)
      (by rw [min_eq_right] <;> linarith) (by norm_num) (by simp; linarith),
    calcGo_some_stop x 750000 (15/100) _ _ _ 500000 (x - 500000) (by linarith)
      (by rw [min_eq_left] <;> linarith) (by linarith) (by linarith)]
  norm_num
  ring_nf

/-- Evaluation on `750000 < x ≤ 1000000`. -/
theorem calc_region5 (x : ℚ) (h0 : 750000 < x) (h1 : x ≤ 1000000) :
    calculate_tax x =
      ((x - 750000) * (20/100) + 65000,
       [⟨0, some 150000, 0, 150000, 0⟩,
        ⟨150000, some 300000, 5/100, 150000, 7500⟩,
        ⟨300000, some 500000, 10/100, 200000, 20000⟩,
        ⟨500000, some 750000, 15/100, 250000, 37500⟩,
        ⟨750000, some 1000000, 20/100, x - 750000, (x - 750000) * (20/100)⟩]) := by
  rw [calculate_tax, brackets,
    calcGo_some_step x 150000 0 _ 0 x 0 150000 (by linarith)
      (by rw [min_eq_right] <;> linarith) (by norm_num) (by simp; linarith),
    calcGo_some_step x 300000 (5/100) _ _ _ 150000 150000 (by linarith)
      (by rw [min_eq_right] <;> linarith) (by norm_num) (by simp; linarith),
    calcGo_some_step x 500000 (10/100) _ _ _ 300000 200000 (by linarith)
      (by rw [min_eq_right] <;> linarith) (by norm_num) (by simp; linarith),
    calcGo_some_step x 750000 (15/100) _ _ _ 500000 250000 (by linarith)
      (by rw [min_eq_right] <;> linarith) (by norm_num) (by simp; linarith),
    calcGo_some_stop x 1000000 (20/100) _ _ _ 750000 (x - 750000) (by linarith)
      (by rw [min_eq_left] <;> linarith) (by linarith) (by linarith)]
  norm_num
  ring_nf

/-- Evaluation on `1000000 < x ≤ 2000000`. -/
theorem calc_region6 (x : ℚ) (h0 : 1000000 < x) (h1 : x ≤ 2000000) :
    calculate_tax x =
      ((x - 1000000) * (25/100) + 115000,
       [⟨0, some 150000, 0, 150000, 0⟩,
        ⟨150000, some 300000, 5/100, 150000, 7500⟩,
        ⟨300000, some 500000, 10/100, 200000, 20000⟩,
        ⟨500000, some 750000, 15/100, 250000, 37500⟩,
        ⟨750000, some 1000000, 20/100, 250000, 50000⟩,
        ⟨1000000, some 2000000, 25/100, x - 1000000, (x - 1000000) * (25/100)⟩]) := by
  rw [calculate_tax, brackets,
    calcGo_some_step x 150000 0 _ 0 x 0 150000 (by linarith)
      (by rw [min_eq_right] <;> linarith) (by norm_num) (by simp; linarith),
    calcGo_some_step x 300000 (5/100) _ _ _ 150000 150000 (by linarith)
      (by rw [min_eq_right] <;> linarith) (by norm_num) (by simp; linarith),
    calcGo_some_step x 500000 (10/100) _ _ _ 300000 200000 (by linarith)
      (by rw [min_eq_right] <;> linarith) (by norm_num) (by simp; linarith),
    calcGo_some_step x 750000 (15/100) _ _ _ 500000 250000 (by linarith)
      (by rw [min_eq_right] <;> linarith) (by norm_num) (by simp; linarith),
    calcGo_some_step x 1000000 (20/100) _ _ _ 750000 250000 (by linarith)
      (by rw [min_eq_right] <;> linarith) (by norm_num) (by simp; linarith),
    calcGo_some_stop x 2000000 (25/100) _ _ _ 1000000 (x - 1000000) (by linarith)
      (by rw [min_eq_left] <;> linarith) (by linarith) (by linarith)]
  norm_num
  ring_nf

/-- Evaluation on `2000000 < x ≤ 5000000`. -/
theorem calc_region7 (x : ℚ) (h0 : 2000000 < x) (h1 : x ≤ 5000000) :
    calculate_tax x =
      ((x - 2000000) * (30/100) + 365000,
       [⟨0, some 150000, 0, 150000, 0⟩,
        ⟨150000, some 300000, 5/100, 150000, 7500⟩,
        ⟨300000, some 500000, 10/100, 200000, 20000⟩,
        ⟨500000, some 750000, 15/100, 250000, 37500⟩,
        ⟨750000, some 1000000, 20/100, 250000, 50000⟩,
        ⟨1000000, some 2000000, 25/100, 1000000, 250000⟩,
        ⟨2000000, some 5000000, 30/100, x - 2000000, (x - 2000000) * (30/100)⟩]) := by
  rw [calculate_tax, brackets,
    calcGo_some_step x 150000 0 _ 0 x 0 150000 (by linarith)
      (by rw [min_eq_right] <;> linarith) (by norm_num) (by simp; linarith),
    calcGo_some_step x 300000 (5/100) _ _ _ 150000 150000 (by linarith)
      (by rw [min_eq_right] <;> linarith) (by norm_num) (by simp; linarith),
    calcGo_some_step x 500000 (10/100) _ _ _ 300000 200000 (by linarith)
      (by rw [min_eq_right] <;> linarith) (by norm_num) (by simp; linarith),
    calcGo_some_step x 750000 (15/100) _ _ _ 500000 250000 (by linarith)
      (by rw [min_eq_right] <;> linarith) (by norm_num) (by simp; linarith),
    calcGo_some_step x 1000000 (20/100) _ _ _ 750000 250000 (by linarith)
      (by rw [min_eq_right] <;> linarith) (by norm_num) (by simp; linarith),
    calcGo_some_step x 2000000 (25/100) _ _ _ 1000000 1000000 (by linarith)
      (by rw [min_eq_right] <;> linarith) (by norm_num) (by simp; linarith),
    calcGo_some_stop x 5000000 (30/100) _ _ _ 2000000 (x - 2000000) (by linarith)
      (by rw [min_eq_left] <;> linarith) (by linarith) (by linarith)]
  norm_num
  ring_nf

/-- Evaluation on `5000000 < x`: the top (unbounded) bracket. -/
theorem calc_region8 (x : ℚ) (h0 : 5000000 < x) :
    calculate_tax x =
      ((x - 5000000) * (35/100) + 1265000,
       [⟨0, some 150000, 0, 150000, 0⟩,
        ⟨150000, some 300000, 5/100, 150000, 7500⟩,
        ⟨300000, some 500000, 10/100, 200000, 20000⟩,
        ⟨500000, some 750000, 15/100, 250000, 37500⟩,
        ⟨750000, some 1000000, 20/100, 250000, 50000⟩,
        ⟨1000000, some 2000000, 25/100, 1000000, 250000⟩,
        ⟨2000000, some 5000000, 30/100, 3000000, 900000⟩,
        ⟨5000000, none, 35/100, x - 5000000, (x - 5000000) * (35/100)⟩]) := by
  rw [calculate_tax, brackets,
    calcGo_some_step x 150000 0 _ 0 x 0 150000 (by linarith)
      (by rw [min_eq_right] <;> linarith) (by norm_num) (by simp; linarith),
    calcGo_some_step x 300000 (5/100) _ _ _ 150000 150000 (by linarith)
      (by rw [min_eq_right] <;> linarith) (by norm_num) (by simp; linarith),
    calcGo_some_step x 500000 (10/100) _ _ _ 300000 200000 (by linarith)
      (by rw [min_eq_right] <;> linarith) (by norm_num) (by simp; linarith),
    calcGo_some_step x 750000 (15/100) _ _ _ 500000 250000 (by linarith)
      (by rw [min_eq_right] <;> linarith) (by norm_num) (by simp; linarith),
    calcGo_some_step x 1000000 (20/100) _ _ _ 750000 250000 (by linarith)
      (by rw [min_eq_right] <;> linarith) (by norm_num) (by simp; linarith),
    calcGo_some_step x 2000000 (25/100) _ _ _ 1000000 1000000 (by linarith)
      (by rw [min_eq_right] <;> linarith) (by norm_num) (by simp; linarith),
    calcGo_some_step x 5000000 (30/100) _ _ _ 2000000 3000000 (by linarith)
      (by rw [min_eq_right] <;> linarith) (by norm_num) (by simp; linarith),
    calcGo_none_stop x (35/100) _ _ _ 5000000 (by linarith) (by linarith)]
  norm_num
  ring_nf
  exact ⟨trivial, trivial⟩

/-! ## Closed form of the bracket tax and monotonicity helpers -/

/-- A bracket contributes nothing below its lower bound. -/
theorem clamp_low (x l u : ℚ) (h : x ≤ l) : clamp x l u = 0 := by
  have h1 : min x u ≤ l := le_trans (min_le_left x u) h
  rw [clamp, max_eq_left (by linarith : min x u - l ≤ 0)]

/-- Inside the bracket, the contribution is `x - l`. -/
theorem clamp_mid (x l u : ℚ) (h1 : l ≤ x) (h2 : x ≤ u) : clamp x l u = x - l := by
  rw [clamp, min_eq_left h2, max_eq_right (by linarith : (0:ℚ) ≤ x - l)]

/-- Above the bracket, the contribution saturates at `u - l`. -/
theorem clamp_high (x l u : ℚ) (h : u ≤ x) (hlu : l ≤ u) : clamp x l u = u - l := by
  rw [clamp, min_eq_right h, max_eq_right (by linarith : (0:ℚ) ≤ u - l)]

/-- Each bracket's clamped contribution is monotone in the income. -/
theorem clamp_mono (x y l u : ℚ) (h : x ≤ y) : clamp x l u ≤ clamp y l u :=
  max_le_max le_rfl (sub_le_sub_right (min_le_min h le_rfl) l)

/-- Below the first threshold the closed form is zero. -/
theorem tax_closed_low (x : ℚ) (h1 : x ≤ 150000) : tax_closed x = 0 := by
  rw [tax_closed,
    clamp_low x 150000 300000 h1,
    clamp_low x 300000 500000 (by linarith),
    clamp_low x 500000 750000 (by linarith),
    clamp_low x 750000 1000000 (by linarith),
    clamp_low x 1000000 2000000 (by linarith),
    clamp_low x 2000000 5000000 (by linarith),
    max_eq_left (by linarith : x - 5000000 ≤ 0)]
  norm_num

/-- The closed form is monotone: each summand is a nonnegative-rate
multiple of a clamped contribution. -/
theorem tax_closed_mono (x y : ℚ) (h : x ≤ y) : tax_closed x ≤ tax_closed y := by
  have c1 := clamp_mono x y 150000 300000 h
  have c2 := clamp_mono x y 300000 500000 h
  have c3 := clamp_mono x y 500000 750000 h
  have c4 := clamp_mono x y 750000 1000000 h
  have c5 := clamp_mono x y 1000000 2000000 h
  have c6 := clamp_mono x y 2000000 5000000 h
  have c7 : max 0 (x - 5000000) ≤ max 0 (y - 5000000) :=
    max_le_max le_rfl (by linarith)
  rw [tax_closed, tax_closed]
  linarith

/-- For nonnegative income, the tax computed by the loop equals the
closed form. -/
theorem calc_fst_eq_closed (x : ℚ) :
    (calculate_tax x).1 = tax_closed x := by
  rcases le_or_lt x 150000 with h1 | h1
  · rw [tax_closed_low x h1]
    rcases le_or_lt x 0 with h | h
    · rw [calc_nonpos x h]
    · rw [calc_region1 x h h1]
  rcases le_or_lt x 300000 with h2 | h2
  · rw [calc_region2 x h1 h2]
    show (x - 150000) * (5/100) = tax_closed x
    rw [tax_closed,
      clamp_mid x 150000 300000 (by linarith) h2,
      clamp_low x 300000 500000 (by linarith),
      clamp_low x 500000 750000 (by linarith),
      clamp_low x 750000 1000000 (by linarith),
      clamp_low x 1000000 2000000 (by linarith),
      clamp_low x 2000000 5000000 (by linarith),
      max_eq_left (by linarith : x - 5000000 ≤ 0)]
    linarith
  rcases le_or_lt x 500000 with h3 | h3
  · rw [calc_region3 x h2 h3]
    show (x - 300000) * (10/100) + 7500 = tax_closed x
    rw [tax_closed,
      clamp_high x 150000 300000 (by linarith) (by norm_num),
      clamp_mid x 300000 500000 (by linarith) h3,
      clamp_low x 500000 750000 (by linarith),
      clamp_low x 750000 1000000 (by linarith),
      clamp_low x 1000000 2000000 (by linarith),
      clamp_low x 2000000 5000000 (by linarith),
      max_eq_left (by linarith : x - 5000000 ≤ 0)]
    linarith
  rcases le_or_lt x 750000 with h4 | h4
  · rw [calc_region4 x h3 h4]
    show (x - 500000) * (15/100) + 27500 = tax_closed x
    rw [tax_closed,
      clamp_high x 150000 300000 (by linarith) (by norm_num),
      clamp_high x 300000 500000 (by linarith) (by norm_num),
      clamp_mid x 500000 750000 (by linarith) h4,
      clamp_low x 750000 1000000 (by linarith),
      clamp_low x 1000000 2000000 (by linarith),
      clamp_low x 2000000 5000000 (by linarith),
      max_eq_left (by linarith : x - 5000000 ≤ 0)]
    linarith
  rcases le_or_lt x 1000000 with h5 | h5
  · rw [calc_region5 x h4 h5]
    show (x - 750000) * (20/100) + 65000 = tax_closed x
    rw [tax_closed,
      clamp_high x 150000 300000 (by linarith) (by norm_num),
      clamp_high x 300000 500000 (by linarith) (by norm_num),
      clamp_high x 500000 750000 (by linarith) (by norm_num),
      clamp_mid x 750000 1000000 (by linarith) h5,
      clamp_low x 1000000 2000000 (by linarith),
      clamp_low x 2000000 5000000 (by linarith),
      max_eq_left (by linarith : x - 5000000 ≤ 0)]
    linarith
  rcases le_or_lt x 2000000 with h6 | h6
  · rw [calc_region6 x h5 h6]
    show (x - 1000000) * (25/100) + 115000 = tax_closed x
    rw [tax_closed,
      clamp_high x 150000 300000 (by linarith) (by norm_num),
      clamp_high x 300000 500000 (by linarith) (by norm_num),
      clamp_high x 500000 750000 (by linarith) (by norm_num),
      clamp_high x 750000 1000000 (by linarith) (by norm_num),
      clamp_mid x 1000000 2000000 (by linarith) h6,
      clamp_low x 2000000 5000000 (by linarith),
      max_eq_left (by linarith : x - 5000000 ≤ 0)]
    linarith
  rcases le_or_lt x 5000000 with h7 | h7
  · rw [calc_region7 x h6 h7]
    show (x - 2000000) * (30/100) + 365000 = tax_closed x
    rw [tax_closed,
      clamp_high x 150000 300000 (by linarith) (by norm_num),
      clamp_high x 300000 500000 (by linarith) (by norm_num),
      clamp_high x 500000 750000 (by linarith) (by norm_num),
      clamp_high x 750000 1000000 (by linarith) (by norm_num),
      clamp_high x 1000000 2000000 (by linarith) (by norm_num),
      clamp_mid x 2000000 5000000 (by linarith) h7,
      max_eq_left (by linarith : x - 5000000 ≤ 0)]
    linarith
  · rw [calc_region8 x h7]
    show (x - 5000000) * (35/100) + 1265000 = tax_closed x
    rw [tax_closed,
      clamp_high x 150000 300000 (by linarith) (by norm_num),
      clamp_high x 300000 500000 (by linarith) (by norm_num),
      clamp_high x 500000 750000 (by linarith) (by norm_num),
      clamp_high x 750000 1000000 (by linarith) (by norm_num),
      clamp_high x 1000000 2000000 (by linarith) (by norm_num),
      clamp_high x 2000000 5000000 (by linarith) (by norm_num),
      max_eq_right (by linarith : (0:ℚ) ≤ x - 5000000)]
    linarith

/-! ## Claim theorems -/

/-- Claim C1.  The spec asserts the deduction aggregation is total and
produces a defined `totalDeductions` for every valid input.  The code
contradicts this: because line 150 binds `teawdeemeekeun` to a
one-element tuple (trailing comma), the `total_deductions` sum at lines
164–176 raises `TypeError` (modelled as `none`) for every input,
whatever the numeric values are. -/
theorem total_deductions_type_error
    (spouse child parent sso lht retire thai_esg easy t mortgage : ℚ) :
    total_deductions_py spouse child parent sso lht retire thai_esg easy
      (teawdeemeekeun t) mortgage = none := by
  simp [total_deductions_py, pyAdd, teawdeemeekeun]

/-- Claim C2, counterexample.  At `netTaxableIncome = 1` (which is
`≤ 150000`) the tax is 0 but the breakdown is NOT empty: the 0% bracket
row is emitted because its `amount_in_bracket = 1 > 0`. -/
theorem breakdown_nonempty_at_one :
    (calculate_tax 1).1 = 0 ∧ (calculate_tax 1).2 ≠ [] := by
  rw [calc_region1 1 (by norm_num) (by norm_num)]
  exact ⟨rfl, by simp⟩

/-- Claim C2, amended.  For `0 ≤ x ≤ 150000` the tax payable is 0; the
breakdown is empty exactly when `x = 0`, and otherwise consists of the
single 0%-bracket row with amount `x` and tax 0. -/
theorem tax_zero_single_row_below_first_limit (x : ℚ)
    (h0 : 0 ≤ x) (h1 : x ≤ 150000) :
    (calculate_tax x).1 = 0 ∧
    (calculate_tax x).2 =
      (if x = 0 then [] else [⟨0, some 150000, 0, x, 0⟩]) := by
  rcases eq_or_lt_of_le h0 with h | h
  · rw [← h, calc_nonpos 0 le_rfl]
    simp
  · rw [calc_region1 x h h1]
    simp [Ne.symm (ne_of_lt h)]

/-- Claim C2, witness for the amended theorem at `x = 1`. -/
theorem tax_zero_single_row_witness :
    (calculate_tax 1).1 = 0 ∧
    (calculate_tax 1).2 =
      (if (1:ℚ) = 0 then [] else [⟨0, some 150000, 0, 1, 0⟩]) :=
  tax_zero_single_row_below_first_limit 1 (by norm_num) (by norm_num)

/-- Claim C3.  For every nonnegative income the amounts taxed in the
breakdown sum exactly to the income, and the rows appear in ascending
bracket order (strictly increasing lower limits). -/
theorem breakdown_amounts_sum_and_ascending (x : ℚ) (hx : 0 ≤ x) :
    sumAmounts (calculate_tax x).2 = x ∧
    List.Chain' (fun a b => a.lower < b.lower) (calculate_tax x).2 := by
  rcases le_or_lt x 0 with h | h
  · have hx0 : x = 0 := le_antisymm h hx
    rw [calc_nonpos x h, hx0]
    exact ⟨by simp [sumAmounts], by simp⟩
  rcases le_or_lt x 150000 with h1 | h1
  · rw [calc_region1 x h h1]
    exact ⟨by simp [sumAmounts], by simp⟩
  rcases le_or_lt x 300000 with h2 | h2
  · rw [calc_region2 x h1 h2]
    constructor
    · simp only [sumAmounts, List.map_cons, List.map_nil, List.sum_cons, List.sum_nil]
      linarith
    · norm_num [List.chain'_cons]
  rcases le_or_lt x 500000 with h3 | h3
  · rw [calc_region3 x h2 h3]
    constructor
    · simp only [sumAmounts, List.map_cons, List.map_nil, List.sum_cons, List.sum_nil]
      linarith
    · norm_num [List.chain'_cons]
  rcases le_or_lt x 750000 with h4 | h4
  · rw [calc_region4 x h3 h4]
    constructor
    · simp only [sumAmounts, List.map_cons, List.map_nil, List.sum_cons, List.sum_nil]
      linarith
    · norm_num [List.chain'_cons]
  rcases le_or_lt x 1000000 with h5 | h5
  · rw [calc_region5 x h4 h5]
    constructor
    · simp only [sumAmounts, List.map_cons, List.map_nil, List.sum_cons, List.sum_nil]
      linarith
    · norm_num [List.chain'_cons]
  rcases le_or_lt x 2000000 with h6 | h6
  · rw [calc_region6 x h5 h6]
    constructor
    · simp only [sumAmounts, List.map_cons, List.map_nil, List.sum_cons, List.sum_nil]
      linarith
    · norm_num [List.chain'_cons]
  rcases le_or_lt x 5000000 with h7 | h7
  · rw [calc_region7 x h6 h7]
    constructor
    · simp only [sumAmounts, List.map_cons, List.map_nil, List.sum_cons, List.sum_nil]
      linarith
    · norm_num [List.chain'_cons]
  · rw [calc_region8 x h7]
    constructor
    · simp only [sumAmounts, List.map_cons, List.map_nil, List.sum_cons, List.sum_nil]
      linarith
    · norm_num [List.chain'_cons]

/-- Claim C3, witness at `x = 500000`. -/
theorem breakdown_sum_witness :
    sumAmounts (calculate_tax 500000).2 = 500000 ∧
    List.Chain' (fun a b => a.lower < b.lower) (calculate_tax 500000).2 :=
  breakdown_amounts_sum_and_ascending 500000 (by norm_num)

/-- Claim C4.  At `netTaxableIncome = 500000` the tax payable is 27500
and the breakdown has exactly the three expected rows (0–150000 at 0%
taxing 0, 150000–300000 at 5% taxing 7500, 300000–500000 at 10% taxing
20000). -/
theorem tax_at_500000 :
    calculate_tax 500000 =
      (27500,
       [⟨0, some 150000, 0, 150000, 0⟩,
        ⟨150000, some 300000, 5/100, 150000, 7500⟩,
        ⟨300000, some 500000, 10/100, 200000, 20000⟩]) := by
  rw [calc_region3 500000 (by norm_num) (by norm_num)]
  norm_num

/-- Claim C5.  The tax payable is monotone: a strictly larger
nonnegative income never yields a smaller tax. -/
theorem tax_payable_monotone (x y : ℚ) (hx : 0 ≤ x) (hxy : x < y) :
    (calculate_tax x).1 ≤ (calculate_tax y).1 := by
  rw [calc_fst_eq_closed x, calc_fst_eq_closed y]
  exact tax_closed_mono x y hxy.le

/-- Claim C5, witness at incomes 100000 and 500000. -/
theorem tax_monotone_witness :
    (calculate_tax 100000).1 ≤ (calculate_tax 500000).1 :=
  tax_payable_monotone 100000 500000 (by norm_num) (by norm_num)

/-- Claim C6.  The retirement group deduction equals
`min(providentFund + rmf + ssf, 500000)` — no separate enforcement of a
per-fund sub-cap — and is therefore at most 500000. -/
theorem retirement_group_cap (p r s : ℚ) (hp : 0 ≤ p) (hr : 0 ≤ r) (hs : 0 ≤ s) :
    retirement_deductible p r s = min (p + r + s) 500000 ∧
    retirement_deductible p r s ≤ 500000 :=
  ⟨rfl, min_le_right _ _⟩

/-- Claim C6, witness: an SSF investment of 300000 (above the 200000
statutory sub-cap) is counted in full. -/
theorem retirement_group_cap_witness :
    retirement_deductible 0 0 300000 = min (0 + 0 + 300000) 500000 ∧
    retirement_deductible 0 0 300000 ≤ 500000 :=
  retirement_group_cap 0 0 300000 le_rfl le_rfl (by norm_num)

/-- Claim C7.  The insurance group deduction equals
`min(lifeInsurancePremium + min(healthInsurancePremium, 25000), 100000)`
and is therefore at most 100000. -/
theorem insurance_group_cap (life health : ℚ) (hl : 0 ≤ life) (hh : 0 ≤ health) :
    life_health_total life health = min (life + min health 25000) 100000 ∧
    life_health_total life health ≤ 100000 :=
  ⟨rfl, min_le_right _ _⟩

/-- Claim C7, witness at life 90000 and health 30000. -/
theorem insurance_group_cap_witness :
    life_health_total 90000 30000 = min (90000 + min 30000 25000) 100000 ∧
    life_health_total 90000 30000 ≤ 100000 :=
  insurance_group_cap 90000 30000 (by norm_num) (by norm_num)

/-- Claim C8.  The net taxable income of line 182 equals
`max(0, totalIncome − standardExpenseDeduction − totalDeductions)` and
is never negative, however large the deductions are. -/
theorem net_taxable_income_spec (ti ed td : ℚ) :
    net_taxable_income ti ed td = max 0 (ti - ed - td) ∧
    0 ≤ net_taxable_income ti ed td :=
  ⟨rfl, le_max_left _ _⟩

/-- Claim C9.  The effective tax rate is `taxPayable / totalIncome × 100`
when `totalIncome > 0` and 0 when `totalIncome = 0`. -/
theorem effective_tax_rate_spec (tp ti : ℚ) :
    (0 < ti → effective_tax_rate tp ti = tp / ti * 100) ∧
    (ti = 0 → effective_tax_rate tp ti = 0) := by
  constructor
  · intro h
    rw [effective_tax_rate, if_pos h]
  · intro h
    rw [effective_tax_rate, if_neg (by rw [h]; exact lt_irrefl 0)]

/-- Claim C9, witness at `taxPayable = 27500` with incomes 500000 and 0. -/
theorem effective_tax_rate_witness :
    effective_tax_rate 27500 500000 = 27500 / 500000 * 100 ∧
    effective_tax_rate 27500 0 = 0 :=
  ⟨(effective_tax_rate_spec 27500 500000).1 (by norm_num),
   (effective_tax_rate_spec 27500 0).2 rfl⟩

/-- Claim C10.  For every input the tax payable equals the sum of the
per-bracket "Tax Payable" entries of the breakdown, and a negative
input yields the defined result `(0, [])` (the loop-head check
`taxable_income ≤ prev_limit` breaks at once) rather than failing. -/
theorem tax_equals_sum_of_chunks (x : ℚ) :
    (calculate_tax x).1 = sumChunks (calculate_tax x).2 ∧
    (x < 0 → calculate_tax x = (0, [])) := by
  refine ⟨?_, fun hneg => calc_nonpos x hneg.le⟩
  rcases le_or_lt x 0 with h | h
  · rw [calc_nonpos x h]
    simp [sumChunks]
  rcases le_or_lt x 150000 with h1 | h1
  · rw [calc_region1 x h h1]
    simp [sumChunks]
  rcases le_or_lt x 300000 with h2 | h2
  · rw [calc_region2 x h1 h2]
    simp only [sumChunks, List.map_cons, List.map_nil, List.sum_cons, List.sum_nil]
    ring
  rcases le_or_lt x 500000 with h3 | h3
  · rw [calc_region3 x h2 h3]
    simp only [sumChunks, List.map_cons, List.map_nil, List.sum_cons, List.sum_nil]
    ring
  rcases le_or_lt x 750000 with h4 | h4
  · rw [calc_region4 x h3 h4]
    simp only [sumChunks, List.map_cons, List.map_nil, List.sum_cons, List.sum_nil]
    ring
  rcases le_or_lt x 1000000 with h5 | h5
  · rw [calc_region5 x h4 h5]
    simp only [sumChunks, List.map_cons, List.map_nil, List.sum_cons, List.sum_nil]
    ring
  rcases le_or_lt x 2000000 with h6 | h6
  · rw [calc_region6 x h5 h6]
    simp only [sumChunks, List.map_cons, List.map_nil, List.sum_cons, List.sum_nil]
    ring
  rcases le_or_lt x 5000000 with h7 | h7
  · rw [calc_region7 x h6 h7]
    simp only [sumChunks, List.map_cons, List.map_nil, List.sum_cons, List.sum_nil]
    ring
  · rw [calc_region8 x h7]
    simp only [sumChunks, List.map_cons, List.map_nil, List.sum_cons, List.sum_nil]
    ring

/-- Claim C10, witness at `x = -5`. -/
theorem tax_chunks_witness :
    (calculate_tax (-5)).1 = sumChunks (calculate_tax (-5)).2 ∧
    calculate_tax (-5) = (0, []) :=
  ⟨(tax_equals_sum_of_chunks (-5)).1,
   (tax_equals_sum_of_chunks (-5)).2 (by norm_num)⟩
